import Mathlib

/-!
Shallow embedding of a local sentence-embedding HTTP server
(src/embedding_server/local_embedding_server.py) and proofs about its
request handlers.

The server exposes POST /v1/embeddings, GET /healthz, GET / and
GET /favicon.ico.  The only process-wide mutable state is the module-level
variable holding the lazily created SentenceTransformer instance; here that
state is passed explicitly in and out of every handler, together with a
count of how many times the model constructor was invoked during the call.
The embedding model itself is opaque: it is represented by its name and its
encode function, with rationals standing in for the floating-point entries
of the returned vector.
-/

namespace EmbeddingServer

/-- Default whitespace characters removed by the Python string strip method
(the ASCII ones; the strings handled by this server are ordinary text). -/
def pyWhitespace : List Char := [' ', '\t', '\n', '\r', '\x0b', '\x0c']

/-- True on the characters that the Python strip method removes. -/
def isPySpace (c : Char) : Bool := pyWhitespace.contains c

/-- Python str.strip() on a list of characters: remove leading and trailing
whitespace. -/
def pyStripL (l : List Char) : List Char :=
  List.rdropWhile isPySpace (List.dropWhile isPySpace l)

/-- Python str.strip() on strings. -/
def pyStrip (s : String) : String := String.mk (pyStripL s.data)

/-- The opaque embedding capability: a SentenceTransformer instance, i.e.
the name it was constructed with and its encode method. -/
structure SentenceTransformer where
  modelName : String
  encode : String → List ℚ

/-- The error raised when constructing a SentenceTransformer fails. -/
structure ModelLoadError where
  message : String

/-- The ambient process runtime: os.getenv, and the SentenceTransformer
constructor, which either yields an instance or fails with a load error. -/
structure Runtime where
  env : String → Option String
  load : String → Except ModelLoadError SentenceTransformer

/-- MODEL_NAME, resolved once at startup:
os.getenv with key EMBEDDING_MODEL and the fixed default. -/
def MODEL_NAME (rt : Runtime) : String :=
  (rt.env "EMBEDDING_MODEL").getD "sentence-transformers/all-MiniLM-L6-v2"

/-- get_model: if the stored reference is none, construct the model with
MODEL_NAME and store it; return the stored instance.  The stored reference
(the module-level variable, initially none) is passed in and out, and the
third component counts constructor invocations made by this call.  When the
constructor fails the exception propagates and the assignment to the stored
reference never happens, so the state comes back unchanged. -/
def get_model (rt : Runtime) (st : Option SentenceTransformer) :
    Except ModelLoadError SentenceTransformer × Option SentenceTransformer × Nat :=
  match st with
  | some m => (Except.ok m, some m, 0)
  | none =>
    match rt.load (MODEL_NAME rt) with
    | Except.ok m => (Except.ok m, some m, 1)
    | Except.error e => (Except.error e, none, 1)

/-- The request body of POST /v1/embeddings. -/
structure EmbeddingRequest where
  input : String

/-- One element of the data field of the response. -/
structure EmbeddingData where
  embedding : List ℚ

/-- The response body of POST /v1/embeddings. -/
structure EmbeddingResponse where
  data : List EmbeddingData

/-- Outcome of one call of the embeddings handler: a 200 with a response
body, an HTTPException carrying a status code and a detail message, or an
exception escaping the handler unhandled. -/
inductive HttpResult (β : Type) where
  | ok (body : β)
  | httpError (status : Nat) (detail : String)
  | unhandled (e : ModelLoadError)

/-- The POST /v1/embeddings handler.  Strips the input text; if the result
is empty, raises HTTPException 400; otherwise obtains the model via
get_model and encodes the stripped text.  The tolist conversion of the raw
vector is the identity here because the encode result is already a plain
list of numbers.  Returns the HTTP outcome, the stored model reference
after the call, and the number of constructor invocations performed. -/
def generate_embeddings (rt : Runtime) (st : Option SentenceTransformer)
    (request : EmbeddingRequest) :
    HttpResult EmbeddingResponse × Option SentenceTransformer × Nat :=
  let text := pyStrip request.input
  if text = "" then
    (HttpResult.httpError 400 "Input must not be empty", st, 0)
  else
    match get_model rt st with
    | (Except.ok model, st2, n) =>
      let raw_vector := model.encode text
      let vector := raw_vector
      (HttpResult.ok { data := [{ embedding := vector }] }, st2, n)
    | (Except.error e, st2, n) => (HttpResult.unhandled e, st2, n)

/-- The response body of GET /healthz. -/
structure HealthBody where
  status : String
  model : String

/-- The GET /healthz handler: status 200 with status ok and the configured
model identifier.  The stored model reference is neither read nor written
and no constructor invocation happens. -/
def healthcheck (rt : Runtime) (st : Option SentenceTransformer) :
    (Nat × HealthBody) × Option SentenceTransformer × Nat :=
  ((200, { status := "ok", model := MODEL_NAME rt }), st, 0)

/-- The response body of GET /. -/
structure LandingBody where
  status : String
  message : String

/-- The GET / handler: status 200 with a fixed informational payload. -/
def landing (st : Option SentenceTransformer) :
    (Nat × LandingBody) × Option SentenceTransformer × Nat :=
  ((200, { status := "ok", message := "Use POST /v1/embeddings for embeddings" }),
    st, 0)

/-- The GET /favicon.ico handler: status 204 and an empty body
(the handler returns None). -/
def favicon (st : Option SentenceTransformer) :
    (Nat × Option Unit) × Option SentenceTransformer × Nat :=
  ((204, none), st, 0)

/-- A runtime whose model constructor always succeeds, loading a model that
encodes every text to a one-element vector; used to instantiate theorems at
concrete inputs. -/
def rtOk : Runtime where
  env := fun _ => none
  load := fun name => Except.ok { modelName := name, encode := fun _ => [(1 : ℚ)] }

/-- The model that rtOk loads for the default model identifier. -/
def mOk : SentenceTransformer where
  modelName := "sentence-transformers/all-MiniLM-L6-v2"
  encode := fun _ => [(1 : ℚ)]

/-- A runtime whose model constructor always fails. -/
def rtBad : Runtime where
  env := fun _ => none
  load := fun _ => Except.error { message := "no such model" }

/- Lemmas about pyStrip. -/

/-- A stripped character list has no leading whitespace left. -/
theorem dropWhile_pyStripL (l : List Char) :
    List.dropWhile isPySpace (pyStripL l) = pyStripL l := by
  unfold pyStripL
  rw [List.dropWhile_eq_self_iff]
  intro hl
  have hpre := List.rdropWhile_prefix isPySpace (List.dropWhile isPySpace l)
  have hlen : 0 < (List.dropWhile isPySpace l).length :=
    lt_of_lt_of_le hl hpre.length_le
  have hget := hpre.getElem hl
  simp only [List.get_eq_getElem, hget]
  simpa using List.dropWhile_get_zero_not isPySpace l hlen

/-- Stripping a character list twice is the same as stripping it once. -/
theorem pyStripL_idem (l : List Char) : pyStripL (pyStripL l) = pyStripL l := by
  show List.rdropWhile isPySpace (List.dropWhile isPySpace (pyStripL l)) = pyStripL l
  rw [dropWhile_pyStripL]
  show List.rdropWhile isPySpace
      (List.rdropWhile isPySpace (List.dropWhile isPySpace l)) = pyStripL l
  rw [List.rdropWhile_idempotent]
  rfl

/-- Stripping a string twice is the same as stripping it once. -/
theorem pyStrip_idem (s : String) : pyStrip (pyStrip s) = pyStrip s := by
  show String.mk (pyStripL (pyStripL s.data)) = String.mk (pyStripL s.data)
  rw [pyStripL_idem]

/- Claim theorems. -/

/-- Claim C1: for every input string whose stripped form is non-empty,
whenever the model is obtainable (get_model yields ok m) and the model
output on the stripped text is a non-empty vector, the embeddings handler
returns a 200 whose data field has exactly one record, whose embedding
field is exactly the model output vector, a non-empty list of numbers. -/
theorem c1_embeddings_success (rt : Runtime) (st : Option SentenceTransformer)
    (s : String) (m : SentenceTransformer)
    (hs : pyStrip s ≠ "")
    (hm : (get_model rt st).1 = Except.ok m)
    (hv : m.encode (pyStrip s) ≠ []) :
    (generate_embeddings rt st { input := s }).1 =
      HttpResult.ok { data := [{ embedding := m.encode (pyStrip s) }] } ∧
    m.encode (pyStrip s) ≠ [] := by
  refine ⟨?_, hv⟩
  rcases hq : get_model rt st with ⟨res, st2, n⟩
  rw [hq] at hm
  simp only at hm
  subst hm
  simp [generate_embeddings, hq, hs]

/-- Witness for C1 at a concrete runtime and input. -/
theorem c1_embeddings_success_witness :
    (generate_embeddings rtOk none { input := "  hello " }).1 =
      HttpResult.ok { data := [{ embedding := mOk.encode (pyStrip "  hello ") }] } ∧
    mOk.encode (pyStrip "  hello ") ≠ [] :=
  c1_embeddings_success rtOk none "  hello " mOk (by decide) rfl (by decide)

/-- Claim C2: for every input string that strips to the empty string, the
embeddings handler fails with HTTPException status 400 and the detail
message saying the input must not be empty. -/
theorem c2_empty_input_400 (rt : Runtime) (st : Option SentenceTransformer)
    (s : String) (hs : pyStrip s = "") :
    (generate_embeddings rt st { input := s }).1 =
      HttpResult.httpError 400 "Input must not be empty" := by
  simp [generate_embeddings, hs]

/-- Witness for C2 at a whitespace-only input. -/
theorem c2_empty_input_400_witness :
    (generate_embeddings rtOk none { input := "   " }).1 =
      HttpResult.httpError 400 "Input must not be empty" :=
  c2_empty_input_400 rtOk none "   " (by decide)

/-- Claim C3: under a succeeding loader, get_model constructs the model only
when the stored reference is none, stores it, and always returns the stored
instance; a stored handle is never replaced by the embeddings handler; and
two consecutive embedding calls perform at most one constructor invocation
in total. -/
theorem c3_singleton (rt : Runtime) (m : SentenceTransformer)
    (hload : rt.load (MODEL_NAME rt) = Except.ok m)
    (m0 : SentenceTransformer) (req : EmbeddingRequest)
    (s1 s2 : String) (st0 : Option SentenceTransformer) :
    get_model rt none = (Except.ok m, some m, 1) ∧
    get_model rt (some m0) = (Except.ok m0, some m0, 0) ∧
    (generate_embeddings rt (some m0) req).2.1 = some m0 ∧
    (generate_embeddings rt st0 { input := s1 }).2.2 +
      (generate_embeddings rt (generate_embeddings rt st0 { input := s1 }).2.1
        { input := s2 }).2.2 ≤ 1 := by
  refine ⟨by simp [get_model, hload], rfl, ?_, ?_⟩
  · by_cases h : pyStrip req.input = "" <;>
      simp [generate_embeddings, get_model, h]
  · rcases st0 with _ | m0a
    · by_cases h1 : pyStrip s1 = ""
      · by_cases h2 : pyStrip s2 = "" <;>
          simp [generate_embeddings, get_model, hload, h1, h2]
      · by_cases h2 : pyStrip s2 = "" <;>
          simp [generate_embeddings, get_model, hload, h1, h2]
    · by_cases h1 : pyStrip s1 = ""
      · by_cases h2 : pyStrip s2 = "" <;>
          simp [generate_embeddings, get_model, h1, h2]
      · by_cases h2 : pyStrip s2 = "" <;>
          simp [generate_embeddings, get_model, h1, h2]

/-- Witness for C3 at a concrete runtime, model and inputs. -/
theorem c3_singleton_witness :
    get_model rtOk none = (Except.ok mOk, some mOk, 1) ∧
    get_model rtOk (some mOk) = (Except.ok mOk, some mOk, 0) ∧
    (generate_embeddings rtOk (some mOk) { input := "x" }).2.1 = some mOk ∧
    (generate_embeddings rtOk none { input := "a" }).2.2 +
      (generate_embeddings rtOk (generate_embeddings rtOk none { input := "a" }).2.1
        { input := "b" }).2.2 ≤ 1 :=
  c3_singleton rtOk mOk rfl mOk { input := "x" } "a" "b" none

/-- Claim C4: when the constructor fails with a load error, get_model
propagates the error and leaves the stored reference at none, so the next
call retries the load and fails identically; through the embeddings
handler the error escapes unhandled with the state still none. -/
theorem c4_load_failure (rt : Runtime) (e : ModelLoadError) (s : String)
    (hload : rt.load (MODEL_NAME rt) = Except.error e)
    (hs : pyStrip s ≠ "") :
    get_model rt none = (Except.error e, none, 1) ∧
    get_model rt (get_model rt none).2.1 = get_model rt none ∧
    generate_embeddings rt none { input := s } = (HttpResult.unhandled e, none, 1) := by
  refine ⟨by simp [get_model, hload], by simp [get_model, hload], ?_⟩
  simp [generate_embeddings, get_model, hload, hs]

/-- Witness for C4 at a runtime whose loader always fails. -/
theorem c4_load_failure_witness :
    get_model rtBad none = (Except.error { message := "no such model" }, none, 1) ∧
    get_model rtBad (get_model rtBad none).2.1 = get_model rtBad none ∧
    generate_embeddings rtBad none { input := "hi" } =
      (HttpResult.unhandled { message := "no such model" }, none, 1) :=
  c4_load_failure rtBad { message := "no such model" } "hi" rfl (by decide)

/-- Claim C5: the handler invokes the model on the stripped text, so for
every input whose stripped form is non-empty the whole response to input s
equals the response to input pyStrip s. -/
theorem c5_strip_invariant (rt : Runtime) (st : Option SentenceTransformer)
    (s : String) (hs : pyStrip s ≠ "") :
    generate_embeddings rt st { input := s } =
      generate_embeddings rt st { input := pyStrip s } := by
  have _ := hs
  simp only [generate_embeddings, pyStrip_idem]

/-- Witness for C5 at a concrete padded input. -/
theorem c5_strip_invariant_witness :
    generate_embeddings rtOk none { input := " a " } =
      generate_embeddings rtOk none { input := pyStrip " a " } :=
  c5_strip_invariant rtOk none " a " (by decide)

/-- Claim C6: in every process state, GET /healthz returns 200 with status
ok and the configured model identifier, leaves the state unchanged, makes
no constructor invocation, and its response does not depend on the state. -/
theorem c6_healthz (rt : Runtime) (st st2 : Option SentenceTransformer) :
    healthcheck rt st = ((200, { status := "ok", model := MODEL_NAME rt }), st, 0) ∧
    (healthcheck rt st).1 = (healthcheck rt st2).1 :=
  ⟨rfl, rfl⟩

/-- Claim C7: GET / always returns 200 with the fixed informational payload
and GET /favicon.ico always returns 204 with an empty body. -/
theorem c7_landing_favicon (st : Option SentenceTransformer) :
    landing st =
      ((200, { status := "ok", message := "Use POST /v1/embeddings for embeddings" }),
        st, 0) ∧
    favicon st = ((204, none), st, 0) :=
  ⟨rfl, rfl⟩

/-- Claim C8: MODEL_NAME is the environment variable EMBEDDING_MODEL with
the fixed default when unset, and this one value is both the name handed to
the constructor by get_model and the model field reported by /healthz. -/
theorem c8_model_name (rt : Runtime) (st : Option SentenceTransformer)
    (m : SentenceTransformer)
    (henv : rt.env "EMBEDDING_MODEL" = none)
    (hload : rt.load (MODEL_NAME rt) = Except.ok m) :
    MODEL_NAME rt = "sentence-transformers/all-MiniLM-L6-v2" ∧
    get_model rt none = (Except.ok m, some m, 1) ∧
    (healthcheck rt st).1.2.model = MODEL_NAME rt := by
  refine ⟨by unfold MODEL_NAME; rw [henv]; rfl, by simp [get_model, hload], rfl⟩

/-- Witness for C8 at a runtime with an empty environment. -/
theorem c8_model_name_witness :
    MODEL_NAME rtOk = "sentence-transformers/all-MiniLM-L6-v2" ∧
    get_model rtOk none = (Except.ok mOk, some mOk, 1) ∧
    (healthcheck rtOk none).1.2.model = MODEL_NAME rtOk :=
  c8_model_name rtOk none mOk rfl rfl

/-- Claim C9: a request rejected with the empty-input 400 leaves the stored
reference unchanged and performs no constructor invocation; in particular
when the very first request of a process is empty, the reference is still
none afterwards. -/
theorem c9_empty_input_no_load (rt : Runtime) (st : Option SentenceTransformer)
    (s : String) (hs : pyStrip s = "") :
    generate_embeddings rt st { input := s } =
      (HttpResult.httpError 400 "Input must not be empty", st, 0) ∧
    (generate_embeddings rt none { input := s }).2.1 = none := by
  constructor <;> simp [generate_embeddings, hs]

/-- Witness for C9 at the empty input. -/
theorem c9_empty_input_no_load_witness :
    generate_embeddings rtOk none { input := "" } =
      (HttpResult.httpError 400 "Input must not be empty", none, 0) ∧
    (generate_embeddings rtOk none { input := "" }).2.1 = none :=
  c9_empty_input_no_load rtOk none "" (by decide)

/-- Claim C10: GET /healthz, GET / and GET /favicon.ico leave the stored
model reference unchanged, perform no constructor invocation, and their
responses do not depend on the stored reference. -/
theorem c10_get_routes_frame (rt : Runtime) (st st2 : Option SentenceTransformer) :
    (healthcheck rt st).2.1 = st ∧ (healthcheck rt st).2.2 = 0 ∧
    (healthcheck rt st).1 = (healthcheck rt st2).1 ∧
    (landing st).2.1 = st ∧ (landing st).2.2 = 0 ∧
    (landing st).1 = (landing st2).1 ∧
    (favicon st).2.1 = st ∧ (favicon st).2.2 = 0 ∧
    (favicon st).1 = (favicon st2).1 :=
  ⟨rfl, rfl, rfl, rfl, rfl, rfl, rfl, rfl, rfl⟩

end EmbeddingServer
